import Mathlib

/-
Shallow embedding of the core of the `recomendation_system` repository
(behavioral user profiling, rule-based product matching, multi-strategy
optimization and quality metrics), together with theorems settling the
frozen claims about it.

Conventions of the embedding:
* float64 arithmetic of the source is idealized as exact rational
  arithmetic (`ℚ`); quantities that are genuinely irrational in the
  source (sample standard deviations, which go through a square root)
  are modelled in `ℝ`.
* `Python round(x, n)` is modelled by `pyRound n`, round-half-to-even
  on the exact rational value.
* polars DataFrames are modelled as a list of typed rows plus one
  boolean per optional column recording whether the column is present
  (the source repeatedly branches on `'col' in df.columns`);
  nullable cells are `Option` values, and polars aggregations skip
  nulls exactly as the source's `sum`/`mean`/`max` do.
* Python's stable `sorted` (and the per-group selections the engine
  performs after a polars `sort`) are modelled with Mathlib's
  `List.insertionSort`, which is a stable sort.
-/

/-! ### Rounding: model of Python `round(x, n)` (banker's rounding) -/

/-- Round a rational to the nearest integer, ties to even
(the rounding mode of Python's builtin `round`). -/
def roundHalfEven (q : ℚ) : ℤ :=
  let f := Rat.floor q
  let r := q - f
  if r < 1/2 then f
  else if 1/2 < r then f + 1
  else if 2 ∣ f then f else f + 1

/-- Model of Python `round(q, n)`: round to `n` decimal digits. -/
def pyRound (n : ℕ) (q : ℚ) : ℚ := (roundHalfEven (q * 10 ^ n) : ℚ) / 10 ^ n

theorem roundHalfEven_intCast (k : ℤ) : roundHalfEven (k : ℚ) = k := by
  unfold roundHalfEven
  have hf : Rat.floor (k : ℚ) = k := by rw [Rat.floor_def']; simp
  rw [hf]
  norm_num

theorem pyRound_int_div_pow (n : ℕ) (k : ℤ) :
    pyRound n ((k : ℚ) / 10 ^ n) = (k : ℚ) / 10 ^ n := by
  unfold pyRound
  have h10 : ((10 : ℚ) ^ n) ≠ 0 := by positivity
  have hmul : ((k : ℚ) / 10 ^ n) * 10 ^ n = (k : ℚ) := by field_simp
  rw [hmul, roundHalfEven_intCast]

/-- A rational that is an integer multiple of `1/1000`; every score the
matcher stores has this shape, so re-rounding it is the identity. -/
def Thousandth (q : ℚ) : Prop := ∃ k : ℤ, q = (k : ℚ) / 1000

theorem Thousandth.pyRound3 {q : ℚ} (h : Thousandth q) : pyRound 3 q = q := by
  obtain ⟨k, rfl⟩ := h
  have : ((1000 : ℚ)) = 10 ^ 3 := by norm_num
  rw [this]
  exact pyRound_int_div_pow 3 k

theorem Thousandth.add {a b : ℚ} (ha : Thousandth a) (hb : Thousandth b) :
    Thousandth (a + b) := by
  obtain ⟨k, rfl⟩ := ha
  obtain ⟨m, rfl⟩ := hb
  exact ⟨k + m, by push_cast; ring⟩

theorem Thousandth.min {a b : ℚ} (ha : Thousandth a) (hb : Thousandth b) :
    Thousandth (min a b) := by
  rcases le_total a b with h | h
  · rwa [min_eq_left h]
  · rwa [min_eq_right h]

theorem Thousandth.max {a b : ℚ} (ha : Thousandth a) (hb : Thousandth b) :
    Thousandth (max a b) := by
  rcases le_total a b with h | h
  · rwa [max_eq_right h]
  · rwa [max_eq_left h]

theorem thousandth_pyRound3 (q : ℚ) : Thousandth (pyRound 3 q) :=
  ⟨roundHalfEven (q * 10 ^ 3), by unfold pyRound; norm_num⟩

/-! ### Data model: user profiles and bank products

`UserProfile` carries exactly the profile fields the matcher's
`_calculate_simple_product_match` reads (via `user_profile.get(...)`;
the profiler always emits these keys, and the `or 0` coalescing of the
source is subsumed by the typed rational fields).  `category_affinity`
is the dict produced by `_calculate_category_affinity`, modelled as an
association list. -/

structure UserProfile where
  user_id : String
  spending_level : String
  interaction_frequency : String
  total_spent : ℚ
  avg_transaction_value : ℚ
  category_diversity : ℚ
  activity_duration_days : ℚ
  category_affinity : List (String × ℚ)

/-- A bank product from `config/products.py`: the matcher reads only
`id`, `name` and `business_value` (its `target_profile` dict is never
consulted by the scoring code, so it is omitted). -/
structure Product where
  id : String
  name : String
  business_value : ℚ

/-! ### ScoringEngine: `ProductMatcher._calculate_simple_product_match` -/

/-- Embedding of `_calculate_simple_product_match` from
`src/product_matcher.py` (lines 99-166).  The source takes the product
as an argument but never reads it.  Each if/elif arm of the source both
increments `score` and appends one reasoning string; the two effects of
an arm are rendered as a pair of conditionals on the same condition
(`sK` for the score after signal K, `rK` for the reasoning list), and
the returned score is `min(score, 1.0)`. -/
def calculate_simple_product_match (user_profile : UserProfile) (_product : Product) :
    ℚ × List String :=
  let r0 : List String := []
  let s0 : ℚ := 3/10
  -- 1. Уровень трат
  let s1 : ℚ :=
    if user_profile.spending_level = "high" ∨ user_profile.spending_level = "very_high" then
      s0 + 2/10
    else if user_profile.spending_level = "medium" then s0 + 1/10
    else s0
  let r1 : List String :=
    if user_profile.spending_level = "high" ∨ user_profile.spending_level = "very_high" then
      r0 ++ ["Высокий уровень трат"]
    else if user_profile.spending_level = "medium" then r0 ++ ["Средний уровень трат"]
    else r0
  -- 2. Активность
  let s2 : ℚ :=
    if user_profile.interaction_frequency = "high" ∨
        user_profile.interaction_frequency = "very_high" then s1 + 15/100
    else if user_profile.interaction_frequency = "medium" then s1 + 8/100
    else s1
  let r2 : List String :=
    if user_profile.interaction_frequency = "high" ∨
        user_profile.interaction_frequency = "very_high" then r1 ++ ["Высокая активность"]
    else if user_profile.interaction_frequency = "medium" then r1 ++ ["Умеренная активность"]
    else r1
  -- 3. Общие траты
  let s3 : ℚ :=
    if user_profile.total_spent > 50000 then s2 + 15/100
    else if user_profile.total_spent > 20000 then s2 + 8/100
    else s2
  let r3 : List String :=
    if user_profile.total_spent > 50000 then r2 ++ ["Значительные общие траты"]
    else if user_profile.total_spent > 20000 then r2 ++ ["Заметные траты"]
    else r2
  -- 4. Средний чек
  let s4 : ℚ :=
    if user_profile.avg_transaction_value > 10000 then s3 + 1/10
    else if user_profile.avg_transaction_value > 5000 then s3 + 5/100
    else s3
  let r4 : List String :=
    if user_profile.avg_transaction_value > 10000 then r3 ++ ["Высокий средний чек"]
    else if user_profile.avg_transaction_value > 5000 then r3 ++ ["Средний чек выше среднего"]
    else r3
  -- 5. Разнообразие интересов
  let s5 : ℚ :=
    if user_profile.category_diversity > 3/10 then s4 + 1/10
    else if user_profile.category_diversity > 1/10 then s4 + 5/100
    else s4
  let r5 : List String :=
    if user_profile.category_diversity > 3/10 then r4 ++ ["Широкие интересы"]
    else if user_profile.category_diversity > 1/10 then r4 ++ ["Разнообразные интересы"]
    else r4
  -- 6. Длительность активности
  let s6 : ℚ :=
    if user_profile.activity_duration_days > 180 then s5 + 8/100
    else if user_profile.activity_duration_days > 30 then s5 + 4/100
    else s5
  let r6 : List String :=
    if user_profile.activity_duration_days > 180 then r5 ++ ["Длительная активность"]
    else if user_profile.activity_duration_days > 30 then r5 ++ ["Стабильная активность"]
    else r5
  -- 7. Категориальные предпочтения (если есть)
  let s7 : ℚ :=
    if user_profile.category_affinity ≠ [] then s6 + 5/100 else s6
  let r7 : List String :=
    if user_profile.category_affinity ≠ [] then r6 ++ ["Есть категориальные предпочтения"]
    else r6
  (min s7 1, r7)

/-! Spec-side formulation of the rule score: the bonus table of
spec §4.3, one additive bonus per signal, applied to a floor of 0.3 and
clamped to the interval `[0, 1]`.  This is written from the spec's
wording, to be compared with the embedding above. -/

def clamp01 (q : ℚ) : ℚ := max 0 (min q 1)

def specSpendingBonus (p : UserProfile) : ℚ :=
  if p.spending_level = "high" ∨ p.spending_level = "very_high" then 2/10
  else if p.spending_level = "medium" then 1/10 else 0

def specActivityBonus (p : UserProfile) : ℚ :=
  if p.interaction_frequency = "high" ∨ p.interaction_frequency = "very_high" then 15/100
  else if p.interaction_frequency = "medium" then 8/100 else 0

def specTotalSpentBonus (p : UserProfile) : ℚ :=
  if p.total_spent > 50000 then 15/100
  else if p.total_spent > 20000 then 8/100 else 0

def specAvgTransactionBonus (p : UserProfile) : ℚ :=
  if p.avg_transaction_value > 10000 then 1/10
  else if p.avg_transaction_value > 5000 then 5/100 else 0

def specDiversityBonus (p : UserProfile) : ℚ :=
  if p.category_diversity > 3/10 then 1/10
  else if p.category_diversity > 1/10 then 5/100 else 0

def specDurationBonus (p : UserProfile) : ℚ :=
  if p.activity_duration_days > 180 then 8/100
  else if p.activity_duration_days > 30 then 4/100 else 0

def specAffinityBonus (p : UserProfile) : ℚ :=
  if p.category_affinity ≠ [] then 5/100 else 0

/-- The spec's rule score: floor 0.3 plus the seven table bonuses,
clamped to `[0,1]`. -/
def specRuleScore (p : UserProfile) : ℚ :=
  clamp01 (3/10 + specSpendingBonus p + specActivityBonus p + specTotalSpentBonus p +
    specAvgTransactionBonus p + specDiversityBonus p + specDurationBonus p +
    specAffinityBonus p)

/-- `None of the bonus conditions holds` for a profile, read off the
spec's bonus table. -/
def NoBonusSignals (p : UserProfile) : Prop :=
  ¬(p.spending_level = "high" ∨ p.spending_level = "very_high") ∧
  p.spending_level ≠ "medium" ∧
  ¬(p.interaction_frequency = "high" ∨ p.interaction_frequency = "very_high") ∧
  p.interaction_frequency ≠ "medium" ∧
  ¬(p.total_spent > 20000) ∧
  ¬(p.avg_transaction_value > 5000) ∧
  ¬(p.category_diversity > 1/10) ∧
  ¬(p.activity_duration_days > 30) ∧
  p.category_affinity = []

theorem specBonuses_nonneg (p : UserProfile) :
    0 ≤ specSpendingBonus p ∧ 0 ≤ specActivityBonus p ∧ 0 ≤ specTotalSpentBonus p ∧
    0 ≤ specAvgTransactionBonus p ∧ 0 ≤ specDiversityBonus p ∧ 0 ≤ specDurationBonus p ∧
    0 ≤ specAffinityBonus p := by
  unfold specSpendingBonus specActivityBonus specTotalSpentBonus specAvgTransactionBonus
    specDiversityBonus specDurationBonus specAffinityBonus
  refine ⟨?_, ?_, ?_, ?_, ?_, ?_, ?_⟩ <;> split_ifs <;> norm_num

theorem ite_add_chain1 (s a : ℚ) (c : Prop) [Decidable c] :
    (if c then s + a else s) = s + (if c then a else 0) := by
  split_ifs <;> ring

theorem ite_add_merge (s a t : ℚ) (c : Prop) [Decidable c] :
    (if c then s + a else s + t) = s + (if c then a else t) := by
  split_ifs <;> ring

theorem match_score_eq_min_bonus_sum (p : UserProfile) (pr : Product) :
    (calculate_simple_product_match p pr).1 =
      min (3/10 + specSpendingBonus p + specActivityBonus p + specTotalSpentBonus p +
        specAvgTransactionBonus p + specDiversityBonus p + specDurationBonus p +
        specAffinityBonus p) 1 := by
  simp only [calculate_simple_product_match, ite_add_chain1, ite_add_merge,
    specSpendingBonus, specActivityBonus, specTotalSpentBonus, specAvgTransactionBonus,
    specDiversityBonus, specDurationBonus, specAffinityBonus]

theorem match_score_eq_specRuleScore (p : UserProfile) (pr : Product) :
    (calculate_simple_product_match p pr).1 = specRuleScore p := by
  rw [match_score_eq_min_bonus_sum]
  unfold specRuleScore clamp01
  obtain ⟨h1, h2, h3, h4, h5, h6, h7⟩ := specBonuses_nonneg p
  have h0 : (0:ℚ) ≤ min (3/10 + specSpendingBonus p + specActivityBonus p +
      specTotalSpentBonus p + specAvgTransactionBonus p + specDiversityBonus p +
      specDurationBonus p + specAffinityBonus p) 1 :=
    le_min (by linarith) (by norm_num)
  exact (max_eq_right h0).symm

theorem match_score_nonneg_le_one (p : UserProfile) (pr : Product) :
    0 ≤ (calculate_simple_product_match p pr).1 ∧
      (calculate_simple_product_match p pr).1 ≤ 1 := by
  rw [match_score_eq_specRuleScore]
  unfold specRuleScore clamp01
  constructor
  · exact le_max_left 0 _
  · exact max_le (by norm_num) (min_le_right _ 1)

theorem match_score_ge_floor (p : UserProfile) (pr : Product) :
    3/10 ≤ (calculate_simple_product_match p pr).1 := by
  rw [match_score_eq_specRuleScore]
  unfold specRuleScore clamp01
  obtain ⟨h1, h2, h3, h4, h5, h6, h7⟩ := specBonuses_nonneg p
  have hs : (3/10 : ℚ) ≤ 3/10 + specSpendingBonus p + specActivityBonus p +
      specTotalSpentBonus p + specAvgTransactionBonus p + specDiversityBonus p +
      specDurationBonus p + specAffinityBonus p := by linarith
  have hm : (3/10 : ℚ) ≤ min (3/10 + specSpendingBonus p + specActivityBonus p +
      specTotalSpentBonus p + specAvgTransactionBonus p + specDiversityBonus p +
      specDurationBonus p + specAffinityBonus p) 1 :=
    le_min hs (by norm_num)
  exact hm.trans (le_max_right 0 _)

theorem thousandth_ite_chain2 (a b : ℚ) (c c' : Prop) [Decidable c] [Decidable c']
    (ha : Thousandth a) (hb : Thousandth b) :
    Thousandth (if c then a else if c' then b else 0) := by
  split_ifs
  · exact ha
  · exact hb
  · exact ⟨0, by norm_num⟩

theorem specBonuses_thousandth (p : UserProfile) :
    Thousandth (specSpendingBonus p) ∧ Thousandth (specActivityBonus p) ∧
    Thousandth (specTotalSpentBonus p) ∧ Thousandth (specAvgTransactionBonus p) ∧
    Thousandth (specDiversityBonus p) ∧ Thousandth (specDurationBonus p) ∧
    Thousandth (specAffinityBonus p) := by
  unfold specSpendingBonus specActivityBonus specTotalSpentBonus specAvgTransactionBonus
    specDiversityBonus specDurationBonus specAffinityBonus
  refine ⟨thousandth_ite_chain2 _ _ _ _ ⟨200, by norm_num⟩ ⟨100, by norm_num⟩,
    thousandth_ite_chain2 _ _ _ _ ⟨150, by norm_num⟩ ⟨80, by norm_num⟩,
    thousandth_ite_chain2 _ _ _ _ ⟨150, by norm_num⟩ ⟨80, by norm_num⟩,
    thousandth_ite_chain2 _ _ _ _ ⟨100, by norm_num⟩ ⟨50, by norm_num⟩,
    thousandth_ite_chain2 _ _ _ _ ⟨100, by norm_num⟩ ⟨50, by norm_num⟩,
    thousandth_ite_chain2 _ _ _ _ ⟨80, by norm_num⟩ ⟨40, by norm_num⟩, ?_⟩
  split_ifs
  · exact ⟨50, by norm_num⟩
  · exact ⟨0, by norm_num⟩

theorem match_score_thousandth (p : UserProfile) (pr : Product) :
    Thousandth (calculate_simple_product_match p pr).1 := by
  rw [match_score_eq_min_bonus_sum]
  obtain ⟨h1, h2, h3, h4, h5, h6, h7⟩ := specBonuses_thousandth p
  have hsum : Thousandth (3/10 + specSpendingBonus p + specActivityBonus p +
      specTotalSpentBonus p + specAvgTransactionBonus p + specDiversityBonus p +
      specDurationBonus p + specAffinityBonus p) :=
    ((((((Thousandth.add ⟨300, by norm_num⟩ h1).add h2).add h3).add h4).add h5).add
      h6).add h7
  exact hsum.min ⟨1000, by norm_num⟩

/-- C1: for every user profile and product, the rule-based match score
starts at a floor of 0.3, adds exactly the table bonuses whose
threshold condition holds, and is clamped to `[0,1]`; a profile with no
bonus signal scores exactly 0.3. -/
theorem C1_rule_score_floor_and_bonuses (p : UserProfile) (pr : Product) :
    (calculate_simple_product_match p pr).1 = specRuleScore p ∧
    0 ≤ (calculate_simple_product_match p pr).1 ∧
    (calculate_simple_product_match p pr).1 ≤ 1 ∧
    (NoBonusSignals p → (calculate_simple_product_match p pr).1 = 3/10) := by
  refine ⟨match_score_eq_specRuleScore p pr, (match_score_nonneg_le_one p pr).1,
    (match_score_nonneg_le_one p pr).2, fun h => ?_⟩
  obtain ⟨hs1, hs2, ha1, ha2, ht, hav, hd, hdur, haff⟩ := h
  rw [match_score_eq_specRuleScore]
  unfold specRuleScore clamp01 specSpendingBonus specActivityBonus specTotalSpentBonus
    specAvgTransactionBonus specDiversityBonus specDurationBonus specAffinityBonus
  have ht' : ¬(p.total_spent > 50000) := fun hh => ht (by linarith)
  have hav' : ¬(p.avg_transaction_value > 10000) := fun hh => hav (by linarith)
  have hd' : ¬(p.category_diversity > 3/10) := fun hh => hd (by linarith)
  have hdur' : ¬(p.activity_duration_days > 180) := fun hh => hdur (by linarith)
  rw [if_neg hs1, if_neg hs2, if_neg ha1, if_neg ha2, if_neg ht', if_neg ht,
    if_neg hav', if_neg hav, if_neg hd', if_neg hd, if_neg hdur', if_neg hdur,
    if_neg (by simp [haff])]
  norm_num

/-- Witness for C1 at a concrete profile with no bonus signals. -/
def profileNoSignals : UserProfile :=
  { user_id := "u0", spending_level := "unknown", interaction_frequency := "unknown",
    total_spent := 0, avg_transaction_value := 0, category_diversity := 0,
    activity_duration_days := 0, category_affinity := [] }

def productDeposit1 : Product :=
  { id := "deposit_1", name := "Вклад «ПСБ.Накопительный»", business_value := 7/10 }

theorem C1_rule_score_floor_and_bonuses_witness :
    (calculate_simple_product_match profileNoSignals productDeposit1).1 =
      specRuleScore profileNoSignals ∧
    0 ≤ (calculate_simple_product_match profileNoSignals productDeposit1).1 ∧
    (calculate_simple_product_match profileNoSignals productDeposit1).1 ≤ 1 ∧
    (NoBonusSignals profileNoSignals →
      (calculate_simple_product_match profileNoSignals productDeposit1).1 = 3/10) :=
  C1_rule_score_floor_and_bonuses profileNoSignals productDeposit1

/-! ### ScoringEngine: per-user candidate generation

`ProductMatcher._get_enhanced_recommendations_for_user` (lines 45-97)
computes, for one profile, a scored candidate per bank product, keeps
those with `final_score > 0.2`, sorts them by `final_score` descending
with Python's stable `sorted`, and returns the top 5. -/

/-- One row of the recommendations table built by the matcher
(the dict appended at lines 79-91 of `src/product_matcher.py`). -/
structure RecRow where
  user_id : String
  product_id : String
  product_name : String
  product_type : String
  base_match_score : ℚ
  final_score : ℚ
  reasoning : String
  llm_explanation : String
  business_value : ℚ
  ml_enhanced : Bool
  llm_enhanced : Bool

/-- Model of `MLEnhancer.predict` (`src/ml_enhanced_matcher.py`,
lines 62-77): the trained regressor is opaque, modelled by an abstract
`rawModel`; its output is clipped to `[0,1]` by `np.clip` (the 0.5
fallbacks of the untrained/exception paths also lie in `[0,1]`). -/
def MLEnhancer_predict (rawModel : Product → ℚ) (product : Product) : ℚ :=
  max 0 (min (rawModel product) 1)

/-- Model of `MLEnhancer.optimize` (lines 79-83):
`round(base_score * 0.6 + ml_score * 0.4, 3)`. -/
def MLEnhancer_optimize (rawModel : Product → ℚ) (base_score : ℚ) (product : Product) : ℚ :=
  pyRound 3 (base_score * (6/10) + MLEnhancer_predict rawModel product * (4/10))

/-- The final score of one candidate (`src/product_matcher.py`,
lines 58-73): `some rawModel` is the path where the ML model is trained
and its prediction succeeds; `none` covers both the untrained-model
branch and the exception fallback, which set `final_score = base_score`. -/
def final_score_of (mlModel : Option (Product → ℚ)) (base_score : ℚ) (product : Product) : ℚ :=
  match mlModel with
  | some rawModel => MLEnhancer_optimize rawModel base_score product
  | none => base_score

/-- Embedding of `_generate_data_based_explanation` (lines 168-194). -/
def generate_data_based_explanation (user_profile : UserProfile) (product : Product)
    (reasoning : List String) : String :=
  if reasoning = [] then
    "Рекомендуем " ++ product.name ++ " на основе общего анализа вашего профиля."
  else
    let explanation_parts := ["Рекомендуем " ++ product.name ++ " потому что:"]
    let explanation_parts := explanation_parts ++ (reasoning.take 3).map (fun r => "• " ++ r)
    let explanation_parts :=
      if user_profile.spending_level = "high" ∨ user_profile.spending_level = "very_high" then
        explanation_parts ++ ["• ваш уровень трат идеально подходит для этого продукта"]
      else explanation_parts
    let explanation_parts :=
      if user_profile.interaction_frequency = "high" ∨
          user_profile.interaction_frequency = "very_high" then
        explanation_parts ++ ["• ваша активность показывает высокий потенциал"]
      else explanation_parts
    let explanation_parts :=
      if user_profile.total_spent > 50000 then
        explanation_parts ++ ["• ваши значительные траты соответствуют премиальным продуктам"]
      else explanation_parts
    String.intercalate " " explanation_parts

/-- The candidate list the matcher accumulates before sorting
(the loop of lines 51-94): `bank_products` is the `BANK_PRODUCTS` dict
flattened in its (insertion-ordered) iteration order into
`(product_type, product)` pairs; a candidate is appended only when its
final score strictly exceeds the 0.2 acceptance threshold. -/
def enhanced_candidates (user_profile : UserProfile)
    (bank_products : List (String × Product)) (mlModel : Option (Product → ℚ)) :
    List RecRow :=
  bank_products.filterMap (fun tp =>
    let product_type := tp.1
    let product := tp.2
    let base_score := (calculate_simple_product_match user_profile product).1
    let reasoning := (calculate_simple_product_match user_profile product).2
    let final_score := final_score_of mlModel base_score product
    let ml_used := mlModel.isSome
    let explanation := generate_data_based_explanation user_profile product reasoning
    if final_score > 2/10 then
      some { user_id := user_profile.user_id, product_id := product.id,
             product_name := product.name, product_type := product_type,
             base_match_score := pyRound 3 base_score,
             final_score := pyRound 3 final_score,
             reasoning := String.intercalate "; " reasoning,
             llm_explanation := explanation,
             business_value := product.business_value,
             ml_enhanced := ml_used, llm_enhanced := true }
    else none)

/-- Descending-by-`final_score` comparison used to model Python's
stable `sorted(recommendations, key=lambda x: x['final_score'],
reverse=True)` via the stable `List.insertionSort`. -/
def recFinalGe (a b : RecRow) : Prop := b.final_score ≤ a.final_score

instance : DecidableRel recFinalGe :=
  fun a b => inferInstanceAs (Decidable (b.final_score ≤ a.final_score))

instance : IsTotal RecRow recFinalGe := ⟨fun a b => le_total b.final_score a.final_score⟩

instance : IsTrans RecRow recFinalGe :=
  ⟨fun _ _ _ hab hbc => le_trans hbc hab⟩

/-- Embedding of `_get_enhanced_recommendations_for_user` (lines 45-97):
build the candidate list, sort by final score descending (stable), and
return the top 5. -/
def get_enhanced_recommendations_for_user (user_profile : UserProfile)
    (bank_products : List (String × Product)) (mlModel : Option (Product → ℚ)) :
    List RecRow :=
  ((enhanced_candidates user_profile bank_products mlModel).insertionSort recFinalGe).take 5

theorem final_score_of_thousandth {mlModel : Option (Product → ℚ)} {base_score : ℚ}
    {product : Product} (hb : Thousandth base_score) :
    Thousandth (final_score_of mlModel base_score product) := by
  cases mlModel with
  | none => exact hb
  | some rawModel => exact thousandth_pyRound3 _

theorem mem_enhanced_candidates {p : UserProfile} {bp : List (String × Product)}
    {ml : Option (Product → ℚ)} {r : RecRow} (h : r ∈ enhanced_candidates p bp ml) :
    ∃ tp ∈ bp,
      final_score_of ml (calculate_simple_product_match p tp.2).1 tp.2 > 2/10 ∧
      r.final_score = final_score_of ml (calculate_simple_product_match p tp.2).1 tp.2 ∧
      r.user_id = p.user_id ∧ r.business_value = tp.2.business_value := by
  rw [enhanced_candidates, List.mem_filterMap] at h
  obtain ⟨tp, htp, heq⟩ := h
  dsimp only at heq
  split_ifs at heq with hgt
  · have hth : Thousandth (final_score_of ml (calculate_simple_product_match p tp.2).1 tp.2) :=
      final_score_of_thousandth (match_score_thousandth p tp.2)
    obtain rfl : _ = r := Option.some_injective _ heq
    exact ⟨tp, htp, hgt, by simpa using hth.pyRound3, rfl, rfl⟩

theorem enhanced_candidates_final_score_gt {p : UserProfile} {bp : List (String × Product)}
    {ml : Option (Product → ℚ)} {r : RecRow} (h : r ∈ enhanced_candidates p bp ml) :
    r.final_score > 2/10 := by
  obtain ⟨tp, _, hgt, hfs, _⟩ := mem_enhanced_candidates h
  rw [hfs]
  exact hgt

theorem length_filterMap_of_forall_isSome {α β} {f : α → Option β} :
    ∀ {l : List α}, (∀ x ∈ l, (f x).isSome) → (l.filterMap f).length = l.length := by
  intro l
  induction l with
  | nil => intro _; rfl
  | cons a t ih =>
    intro h
    have ha := h a (by simp)
    obtain ⟨b, hb⟩ := Option.isSome_iff_exists.mp ha
    simp [List.filterMap_cons, hb, ih (fun x hx => h x (by simp [hx]))]

/-- C2: for every profile, product list and ML state, the matcher's
per-user candidate list contains only rows whose stored final score
strictly exceeds 0.2, has at most 5 rows, is sorted descending by
final score, and breaks ties by product insertion order: for each
score value, the retained rows with that score form a sublist of the
pre-sort candidate list (stability of the sort). -/
theorem C2_per_user_output_invariants (p : UserProfile) (bp : List (String × Product))
    (ml : Option (Product → ℚ)) :
    (∀ r ∈ get_enhanced_recommendations_for_user p bp ml, r.final_score > 2/10) ∧
    (get_enhanced_recommendations_for_user p bp ml).length ≤ 5 ∧
    List.Sorted recFinalGe (get_enhanced_recommendations_for_user p bp ml) ∧
    (∀ v : ℚ, ((get_enhanced_recommendations_for_user p bp ml).filter
        (fun r => r.final_score = v)).Sublist
      ((enhanced_candidates p bp ml).filter (fun r => r.final_score = v))) := by
  refine ⟨?_, ?_, ?_, ?_⟩
  · intro r hr
    have h1 : r ∈ (enhanced_candidates p bp ml).insertionSort recFinalGe :=
      List.mem_of_mem_take hr
    exact enhanced_candidates_final_score_gt ((List.mem_insertionSort _).mp h1)
  · rw [get_enhanced_recommendations_for_user, List.length_take]
    exact Nat.min_le_left _ _
  · exact List.Pairwise.sublist (List.take_sublist 5 _)
      (List.sorted_insertionSort recFinalGe (enhanced_candidates p bp ml))
  · intro v
    set pv : RecRow → Bool := fun r => decide (r.final_score = v) with hpv
    have hmemc : ∀ a ∈ (enhanced_candidates p bp ml).filter pv, a.final_score = v := by
      intro a ha
      have := (List.mem_filter.mp ha).2
      simpa [hpv] using this
    have hpw : ((enhanced_candidates p bp ml).filter pv).Pairwise recFinalGe := by
      refine List.pairwise_of_forall_mem_list ?_
      intro a ha b hb
      show b.final_score ≤ a.final_score
      rw [hmemc a ha, hmemc b hb]
    have hcs : ((enhanced_candidates p bp ml).filter pv).Sublist
        ((enhanced_candidates p bp ml).insertionSort recFinalGe) :=
      List.sublist_insertionSort hpw (List.filter_sublist _)
    have hcs2 : ((enhanced_candidates p bp ml).filter pv).Sublist
        (((enhanced_candidates p bp ml).insertionSort recFinalGe).filter pv) := by
      have h2 := List.Sublist.filter pv hcs
      rw [List.filter_filter] at h2
      simpa only [Bool.and_self] using h2
    have hlen : (((enhanced_candidates p bp ml).insertionSort recFinalGe).filter pv).length =
        ((enhanced_candidates p bp ml).filter pv).length :=
      ((List.perm_insertionSort recFinalGe (enhanced_candidates p bp ml)).filter pv).length_eq
    have heq : ((enhanced_candidates p bp ml).insertionSort recFinalGe).filter pv =
        (enhanced_candidates p bp ml).filter pv :=
      (List.Sublist.eq_of_length hcs2 hlen.symm).symm
    have hfinal : ((get_enhanced_recommendations_for_user p bp ml).filter pv).Sublist
        (((enhanced_candidates p bp ml).insertionSort recFinalGe).filter pv) :=
      List.Sublist.filter pv (List.take_sublist 5 _)
    rw [heq] at hfinal
    exact hfinal

/-- C9: in the base-only path (ML correction not applied, because the
model is untrained or its prediction raised), every candidate's final
score equals the base rule score, which is at least the 0.3 floor and
strictly above the 0.2 threshold; hence no candidate is dropped by the
retention filter and the per-user output size is exactly
`min 5 (number of products)`. -/
theorem C9_base_path_retention (p : UserProfile) (bp : List (String × Product)) :
    (enhanced_candidates p bp none).length = bp.length ∧
    (get_enhanced_recommendations_for_user p bp none).length = min 5 bp.length ∧
    ∀ r ∈ get_enhanced_recommendations_for_user p bp none,
      (∃ tp ∈ bp, r.final_score = (calculate_simple_product_match p tp.2).1) ∧
      3/10 ≤ r.final_score ∧ r.final_score > 2/10 := by
  have hlen : (enhanced_candidates p bp none).length = bp.length := by
    rw [enhanced_candidates]
    refine length_filterMap_of_forall_isSome ?_
    intro tp _
    have hfloor : 3/10 ≤ (calculate_simple_product_match p tp.2).1 :=
      match_score_ge_floor p tp.2
    have hgt : final_score_of none (calculate_simple_product_match p tp.2).1 tp.2 > 2/10 := by
      show (calculate_simple_product_match p tp.2).1 > 2/10
      linarith
    simp only [if_pos hgt]
    exact Option.isSome_some
  refine ⟨hlen, ?_, ?_⟩
  · rw [get_enhanced_recommendations_for_user, List.length_take,
      List.length_insertionSort, hlen]
  · intro r hr
    have h1 : r ∈ enhanced_candidates p bp none :=
      (List.mem_insertionSort _).mp (List.mem_of_mem_take hr)
    obtain ⟨tp, htp, hgt, hfs, _⟩ := mem_enhanced_candidates h1
    have hbase : final_score_of none (calculate_simple_product_match p tp.2).1 tp.2 =
        (calculate_simple_product_match p tp.2).1 := rfl
    rw [hbase] at hfs hgt
    exact ⟨⟨tp, htp, hfs⟩, hfs ▸ match_score_ge_floor p tp.2, hfs ▸ hgt⟩

/-! ### ProfileBuilder: frames of events and catalog items

A polars DataFrame is modelled as typed rows plus one boolean per
optional column (`'col' in df.columns` checks of the source); a cell is
meaningful only when its column flag is set, and nullable cells are
`Option` values.  Timestamps are modelled as integer day numbers, so
that `(max - min).days` of the source is integer subtraction here. -/

structure EventRow where
  user_id : String
  item_id : String
  category : Option String
  subcategory : Option String
  price : Option ℚ
  price_fixed : Option ℚ
  timestamp : Option ℤ

structure EventsFrame where
  rows : List EventRow
  has_category : Bool
  has_price : Bool
  has_price_fixed : Bool
  has_timestamp : Bool

structure ItemRow where
  item_id : String
  category : Option String
  subcategory : Option String
  price_fixed : Option ℚ

structure ItemsFrame where
  rows : List ItemRow
  has_price_fixed : Bool

/-- Embedding of `UserProfiler._enrich_events_with_item_data`
(`src/user_profiler.py`, lines 58-85).  If either input is empty the
source returns `events_df` itself, unenriched.  Otherwise it
left-joins events to items on `item_id` (unmatched events keep null
attributes, multiple matches duplicate the event row); when the
catalog has no `price_fixed` column one is synthesized from a hash of
the category (`hashFn` stands for polars' unspecified 64-bit hash). -/
def enrich_events_with_item_data (hashFn : String → ℕ) (events_df : EventsFrame)
    (items_df : ItemsFrame) : EventsFrame :=
  if events_df.rows.length = 0 ∨ items_df.rows.length = 0 then events_df
  else
    let items_fixed : List ItemRow :=
      if items_df.has_price_fixed then items_df.rows
      else items_df.rows.map (fun it =>
        { it with price_fixed := match it.category with
            | some c => some (((hashFn c % 9000 : ℕ) : ℚ) + 1000)
            | none => some 2000 })
    let joined : List EventRow := events_df.rows.flatMap (fun e =>
      let matched := items_fixed.filter (fun it => it.item_id == e.item_id)
      if matched.isEmpty then
        [{ e with category := none, subcategory := none, price_fixed := none }]
      else matched.map (fun it =>
        { e with category := it.category, subcategory := it.subcategory,
                 price_fixed := it.price_fixed }))
    { rows := joined, has_category := true, has_price := events_df.has_price,
      has_price_fixed := true, has_timestamp := events_df.has_timestamp }

/-- Arithmetic mean of a list of rationals (polars `mean()` skips
nulls; the caller passes the non-null cells). -/
def listMeanQ (l : List ℚ) : ℚ := if l = [] then 0 else l.sum / l.length

/-- Sample standard deviation (polars `std()`, `ddof=1`): `none` models
the null polars returns for fewer than two samples. -/
noncomputable def sampleStd? (l : List ℚ) : Option ℝ :=
  if 2 ≤ l.length then
    some (Real.sqrt ((l.map (fun x => ((x : ℝ) - (listMeanQ l : ℝ)) ^ 2)).sum /
      ((l.length : ℝ) - 1)))
  else none

structure SpendingMetrics where
  total_spent : ℚ
  avg_transaction_value : ℚ
  spending_level : String
  max_transaction : ℚ
  spending_consistency : ℝ

/-- Embedding of `UserProfiler._calculate_spending_metrics`
(lines 119-169): prices come from `price_fixed` when that column
exists, else from `price`; if neither column exists the `unknown`
default record is returned.  The `... or 0` coalescing of the source
maps polars nulls (empty/all-null aggregations) to 0. -/
noncomputable def calculate_spending_metrics (user_events : EventsFrame) : SpendingMetrics :=
  if user_events.has_price_fixed ∨ user_events.has_price then
    let price_vals : List ℚ :=
      if user_events.has_price_fixed then user_events.rows.filterMap (·.price_fixed)
      else user_events.rows.filterMap (·.price)
    let total_spent := price_vals.sum
    let avg_value := listMeanQ price_vals
    let max_value := (price_vals.max?).getD 0
    let spending_level :=
      if total_spent > 50000 then "very_high"
      else if total_spent > 20000 then "high"
      else if total_spent > 5000 then "medium"
      else if total_spent > 1000 then "low"
      else "very_low"
    let std_dev : ℝ := (sampleStd? price_vals).getD 0
    { total_spent := total_spent, avg_transaction_value := avg_value,
      spending_level := spending_level, max_transaction := max_value,
      spending_consistency := if avg_value > 0 then std_dev / (avg_value : ℝ) else 0 }
  else
    { total_spent := 0, avg_transaction_value := 0, spending_level := "unknown",
      max_transaction := 0, spending_consistency := 0 }

/-- Embedding of `UserProfiler._calculate_preference_stability`
(lines 253-274): below 10 events (or without a category column) the
neutral 0.5 is returned without splitting; otherwise the event list is
split at `height // 2` (`head(half)` / `tail(height - half)`), and the
Jaccard overlap of the non-null category sets of the halves is
returned (0.5 again when both sets are empty). -/
def calculate_preference_stability (user_events : EventsFrame) : ℚ :=
  if ¬user_events.has_category ∨ user_events.rows.length < 10 then 1/2
  else
    let half_point := user_events.rows.length / 2
    let first_half := user_events.rows.take half_point
    let second_half := user_events.rows.drop half_point
    let first_categories := (first_half.filterMap (·.category)).toFinset
    let second_categories := (second_half.filterMap (·.category)).toFinset
    let overlap := (first_categories ∩ second_categories).card
    let total := (first_categories ∪ second_categories).card
    if total > 0 then (overlap : ℚ) / total else 1/2

structure BehavioralMetrics where
  interaction_frequency : String
  category_diversity : ℚ
  unique_categories_count : ℕ
  preference_stability : ℚ

/-- Embedding of `UserProfiler._calculate_behavioral_metrics`
(lines 171-204).  The frequency bucket needs both a timestamp column
and at least one non-null timestamp: with no non-null timestamp the
source's `max() - min()` raises on `None` and the `except` branch
yields `"unknown"`.  polars `n_unique` counts a null category as one
distinct value, hence the `dedup` over `Option String`. -/
def calculate_behavioral_metrics (user_events : EventsFrame) : BehavioralMetrics :=
  let total_events := user_events.rows.length
  let frequency :=
    if user_events.has_timestamp then
      match (user_events.rows.filterMap (·.timestamp)).max?,
          (user_events.rows.filterMap (·.timestamp)).min? with
      | some tmax, some tmin =>
        let days : ℤ := if tmax - tmin > 0 then tmax - tmin else 1
        let events_per_day : ℚ := (total_events : ℚ) / (days : ℚ)
        if events_per_day > 10 then "very_high"
        else if events_per_day > 5 then "high"
        else if events_per_day > 2 then "medium"
        else "low"
      | _, _ => "unknown"
    else "unknown"
  let unique_categories :=
    if user_events.has_category then (user_events.rows.map (·.category)).dedup.length else 0
  let diversity_score : ℚ :=
    if total_events > 0 then (unique_categories : ℚ) / (total_events : ℚ) else 0
  { interaction_frequency := frequency, category_diversity := diversity_score,
    unique_categories_count := unique_categories,
    preference_stability := calculate_preference_stability user_events }

/-- Descending-by-count order on the per-category aggregates, used to
model `category_stats.sort('count', descending=True)` (modelled with a
stable sort; the source leaves tie order unspecified). -/
def statCountGe (a b : String × ℕ × ℚ) : Prop := b.2.1 ≤ a.2.1

instance : DecidableRel statCountGe :=
  fun a b => inferInstanceAs (Decidable (b.2.1 ≤ a.2.1))

instance : IsTotal (String × ℕ × ℚ) statCountGe := ⟨fun a b => le_total b.2.1 a.2.1⟩

instance : IsTrans (String × ℕ × ℚ) statCountGe := ⟨fun _ _ _ hab hbc => le_trans hbc hab⟩

/-- Descending-by-score order on affinity entries, for Python's stable
`sorted(affinity.items(), key=lambda x: x[1], reverse=True)`. -/
def affinityValGe (a b : String × ℚ) : Prop := b.2 ≤ a.2

instance : DecidableRel affinityValGe :=
  fun a b => inferInstanceAs (Decidable (b.2 ≤ a.2))

instance : IsTotal (String × ℚ) affinityValGe := ⟨fun a b => le_total b.2 a.2⟩

instance : IsTrans (String × ℚ) affinityValGe := ⟨fun _ _ _ hab hbc => le_trans hbc hab⟩

/-- Embedding of `UserProfiler._calculate_category_affinity`
(lines 206-251).  Returns the empty dict when the category column is
absent; also when `price_fixed` is absent, because the group-by
aggregation on `pl.col('price_fixed')` then raises and the broad
`except` returns `{}`.  Groups are keyed by category in first-occurrence
order (polars leaves group order unspecified), aggregated to
`(count, total_spent)`, sorted by count descending;
`interaction_share`/`spending_share` render the source's
interaction and spending fractions, blended 0.6/0.4, rounded to 3
digits; the final dict is the top 10 entries by score descending.
The source's per-entry re-check `if category and category != 'null'`
always holds for the filtered group keys. -/
def calculate_category_affinity (user_events : EventsFrame) : List (String × ℚ) :=
  if ¬user_events.has_category then []
  else if ¬user_events.has_price_fixed then []
  else
    let valid_events := user_events.rows.filter (fun e =>
      match e.category with
      | some c => decide (c ≠ "" ∧ c ≠ "null")
      | none => false)
    if valid_events.length = 0 then []
    else
      let cats := (valid_events.filterMap (·.category)).dedup
      let category_stats : List (String × ℕ × ℚ) :=
        (cats.map (fun c =>
          let grp := valid_events.filter (fun e => e.category == some c)
          (c, grp.length, (grp.filterMap (·.price_fixed)).sum))).insertionSort statCountGe
      let total_interactions : ℕ := (category_stats.map (fun s => s.2.1)).sum
      let total_user_spent : ℚ := (valid_events.filterMap (·.price_fixed)).sum
      let affinity : List (String × ℚ) := category_stats.map (fun s =>
        let interaction_share : ℚ :=
          if total_interactions > 0 then (s.2.1 : ℚ) / (total_interactions : ℚ) else 0
        let spending_share : ℚ :=
          if total_user_spent > 0 then s.2.2 / total_user_spent else 0
        (s.1, pyRound 3 (interaction_share * (6/10) + spending_share * (4/10))))
      (affinity.insertionSort affinityValGe).take 10

/-! ### Claim C4: enrichment on empty inputs -/

def eventsSingleton : EventsFrame :=
  { rows := [{ user_id := "u1", item_id := "i1", category := none, subcategory := none,
               price := none, price_fixed := none, timestamp := none }],
    has_category := false, has_price := false, has_price_fixed := false,
    has_timestamp := false }

def itemsEmpty : ItemsFrame := { rows := [], has_price_fixed := false }

/-- C4 counterexample: with one event and an empty catalog, the
enrichment step returns the event collection unchanged — a nonempty
sequence — so the claim that it returns an empty sequence whenever
either input is empty is false. -/
theorem C4_counterexample_nonempty_result :
    (enrich_events_with_item_data (fun _ => 0) eventsSingleton itemsEmpty).rows ≠ [] := by
  simp [enrich_events_with_item_data, eventsSingleton, itemsEmpty]

/-- C4 (amended): if either the event collection or the catalog is
empty, the enrichment step returns the event collection unchanged (so
its result is empty exactly when the events were empty) and does not
raise. -/
theorem C4_empty_inputs_return_events (hashFn : String → ℕ) (events_df : EventsFrame)
    (items_df : ItemsFrame) (h : events_df.rows = [] ∨ items_df.rows = []) :
    enrich_events_with_item_data hashFn events_df items_df = events_df ∧
    ((enrich_events_with_item_data hashFn events_df items_df).rows = [] ↔
      events_df.rows = []) := by
  have hc : events_df.rows.length = 0 ∨ items_df.rows.length = 0 := by
    rcases h with h | h <;> simp [h]
  have he : enrich_events_with_item_data hashFn events_df items_df = events_df := by
    rw [enrich_events_with_item_data, if_pos hc]
  exact ⟨he, by rw [he]⟩

/-- Witness for C4 (amended) at a concrete nonempty event list and an
empty catalog. -/
theorem C4_empty_inputs_return_events_witness :
    enrich_events_with_item_data (fun _ => 0) eventsSingleton itemsEmpty = eventsSingleton ∧
    ((enrich_events_with_item_data (fun _ => 0) eventsSingleton itemsEmpty).rows = [] ↔
      eventsSingleton.rows = []) :=
  C4_empty_inputs_return_events (fun _ => 0) eventsSingleton itemsEmpty (Or.inr rfl)

/-! ### Claim C5: preference stability -/

/-- The non-null category set of the first half of a user's event
history (split at the midpoint `height // 2`), as the spec describes. -/
def firstHalfCategories (f : EventsFrame) : Finset String :=
  ((f.rows.take (f.rows.length / 2)).filterMap (·.category)).toFinset

/-- The non-null category set of the second half of a user's event
history. -/
def secondHalfCategories (f : EventsFrame) : Finset String :=
  ((f.rows.drop (f.rows.length / 2)).filterMap (·.category)).toFinset

/-- Jaccard similarity of two finite sets of category names. -/
def jaccard (A B : Finset String) : ℚ := ((A ∩ B).card : ℚ) / ((A ∪ B).card : ℚ)

/-- C5: preference stability splits the (chronologically ordered) event
history at the midpoint and returns the Jaccard similarity of the two
halves' category sets; with fewer than 10 events it returns the
neutral 0.5 without attempting the split. -/
theorem C5_preference_stability (f : EventsFrame) :
    (f.rows.length < 10 → calculate_preference_stability f = 1/2) ∧
    (f.has_category = true → 10 ≤ f.rows.length →
      (firstHalfCategories f ∪ secondHalfCategories f).Nonempty →
      calculate_preference_stability f =
        jaccard (firstHalfCategories f) (secondHalfCategories f)) := by
  constructor
  · intro hlt
    rw [calculate_preference_stability, if_pos (Or.inr hlt)]
  · intro hcat hge hne
    have hcond : ¬(¬f.has_category ∨ f.rows.length < 10) := by
      push_neg
      exact ⟨by simp [hcat], hge⟩
    rw [calculate_preference_stability, if_neg hcond]
    have hpos : 0 < (firstHalfCategories f ∪ secondHalfCategories f).card :=
      Finset.card_pos.mpr hne
    simp only [firstHalfCategories, secondHalfCategories] at hpos ⊢
    rw [if_pos hpos]
    rfl

def eventRowCat (c : Option String) : EventRow :=
  { user_id := "u1", item_id := "i1", category := c, subcategory := none,
    price := none, price_fixed := none, timestamp := none }

/-- Ten events: the first half interacts with categories a,b, the
second half with b,c. -/
def eventsTenCats : EventsFrame :=
  { rows := [eventRowCat (some "a"), eventRowCat (some "a"), eventRowCat (some "b"),
             eventRowCat (some "a"), eventRowCat (some "b"),
             eventRowCat (some "b"), eventRowCat (some "c"), eventRowCat (some "b"),
             eventRowCat (some "c"), eventRowCat (some "c")],
    has_category := true, has_price := false, has_price_fixed := false,
    has_timestamp := false }

def eventsNineCats : EventsFrame :=
  { rows := List.replicate 9 (eventRowCat (some "a")),
    has_category := true, has_price := false, has_price_fixed := false,
    has_timestamp := false }

/-- Witness for C5: a 9-event history returns the neutral 0.5, and a
10-event history returns the Jaccard similarity of its two halves. -/
theorem C5_preference_stability_witness :
    calculate_preference_stability eventsNineCats = 1/2 ∧
    calculate_preference_stability eventsTenCats =
      jaccard (firstHalfCategories eventsTenCats) (secondHalfCategories eventsTenCats) := by
  constructor
  · exact (C5_preference_stability eventsNineCats).1 (by simp [eventsNineCats])
  · refine (C5_preference_stability eventsTenCats).2 rfl (by simp [eventsTenCats]) ?_
    refine ⟨"b", ?_⟩
    simp [firstHalfCategories, secondHalfCategories, eventsTenCats, eventRowCat]

/-! ### Claim C10: `unknown` buckets -/

/-- The five documented spending levels. -/
def spendingLevelNames : List String := ["very_low", "low", "medium", "high", "very_high"]

/-- The four documented interaction frequency classes. -/
def frequencyNames : List String := ["low", "medium", "high", "very_high"]

/-- C10: without any price column the spending level is the
off-catalog string `"unknown"`; without a timestamp column, or when
all timestamps are null (so the source's `max() - min()` raises),
the interaction frequency is `"unknown"`; and the matcher gives an
`"unknown"` value no bonus, scoring such profiles exactly like the
lowest buckets. -/
theorem C10_unknown_values (f g : EventsFrame) (p : UserProfile) (pr : Product)
    (hpf : f.has_price_fixed = false) (hp : f.has_price = false)
    (hts : g.has_timestamp = false ∨ g.rows.filterMap (·.timestamp) = [])
    (hsl : p.spending_level = "unknown") (hif : p.interaction_frequency = "unknown") :
    (calculate_spending_metrics f).spending_level = "unknown" ∧
    "unknown" ∉ spendingLevelNames ∧
    (calculate_behavioral_metrics g).interaction_frequency = "unknown" ∧
    "unknown" ∉ frequencyNames ∧
    (calculate_simple_product_match p pr).1 =
      (calculate_simple_product_match
        { p with spending_level := "very_low", interaction_frequency := "low" } pr).1 := by
  refine ⟨?_, ?_, ?_, ?_, ?_⟩
  · simp [calculate_spending_metrics, hpf, hp]
  · simp [spendingLevelNames]
  · rcases hts with h | h
    · simp [calculate_behavioral_metrics, h]
    · simp [calculate_behavioral_metrics, h]
  · simp [frequencyNames]
  · rw [match_score_eq_min_bonus_sum, match_score_eq_min_bonus_sum]
    simp [specSpendingBonus, specActivityBonus, specTotalSpentBonus,
      specAvgTransactionBonus, specDiversityBonus, specDurationBonus, specAffinityBonus,
      hsl, hif]

def eventRowTsNull : EventRow :=
  { user_id := "u1", item_id := "i1", category := none, subcategory := none,
    price := none, price_fixed := none, timestamp := none }

/-- Events with a timestamp column whose cells are all null. -/
def eventsNullTs : EventsFrame :=
  { rows := [eventRowTsNull, eventRowTsNull], has_category := false, has_price := false,
    has_price_fixed := false, has_timestamp := true }

def profileUnknown : UserProfile :=
  { user_id := "u9", spending_level := "unknown", interaction_frequency := "unknown",
    total_spent := 40000, avg_transaction_value := 7000, category_diversity := 2/10,
    activity_duration_days := 60, category_affinity := [("books", 1/2)] }

/-- Witness for C10 at concrete frames (no price columns; all-null
timestamp column) and a concrete profile with `"unknown"` buckets. -/
theorem C10_unknown_values_witness :
    (calculate_spending_metrics eventsNullTs).spending_level = "unknown" ∧
    "unknown" ∉ spendingLevelNames ∧
    (calculate_behavioral_metrics eventsNullTs).interaction_frequency = "unknown" ∧
    "unknown" ∉ frequencyNames ∧
    (calculate_simple_product_match profileUnknown productDeposit1).1 =
      (calculate_simple_product_match
        { profileUnknown with
          spending_level := "very_low"
          interaction_frequency := "low" } productDeposit1).1 :=
  C10_unknown_values eventsNullTs eventsNullTs profileUnknown productDeposit1 rfl rfl
    (Or.inr (by simp [eventsNullTs, eventRowTsNull])) rfl rfl

/-! ### Claim C6: spending buckets and the electronics scenario -/

/-- The spec's fixed spending-level thresholds on total spend. -/
def spendingLevelOf (total : ℚ) : String :=
  if total > 50000 then "very_high"
  else if total > 20000 then "high"
  else if total > 5000 then "medium"
  else if total > 1000 then "low"
  else "very_low"

def electronicsRow (p : ℚ) : EventRow :=
  { user_id := "u1", item_id := "i1", category := some "electronics", subcategory := none,
    price := none, price_fixed := some p, timestamp := none }

/-- Scenario A of the spec: one user, three purchases in category
`electronics` with resolved prices 1000, 2000, 3000. -/
def eventsElectronics : EventsFrame :=
  { rows := [electronicsRow 1000, electronicsRow 2000, electronicsRow 3000],
    has_category := true, has_price := false, has_price_fixed := true,
    has_timestamp := false }

/-- C6: with resolved prices, `spending_level` is the fixed bucketing
of the summed spend; on the three-purchase electronics scenario the
profile has total 6000, average 2000, level `"medium"` and category
affinity `electronics ↦ 1.0`. -/
theorem C6_spending_buckets_and_scenario (f : EventsFrame)
    (hpf : f.has_price_fixed = true) :
    (calculate_spending_metrics f).total_spent = (f.rows.filterMap (·.price_fixed)).sum ∧
    (calculate_spending_metrics f).spending_level =
      spendingLevelOf ((f.rows.filterMap (·.price_fixed)).sum) ∧
    (calculate_spending_metrics eventsElectronics).total_spent = 6000 ∧
    (calculate_spending_metrics eventsElectronics).avg_transaction_value = 2000 ∧
    (calculate_spending_metrics eventsElectronics).spending_level = "medium" ∧
    calculate_category_affinity eventsElectronics = [("electronics", 1)] := by
  have hgen : ∀ g : EventsFrame, g.has_price_fixed = true →
      (calculate_spending_metrics g).total_spent = (g.rows.filterMap (·.price_fixed)).sum ∧
      (calculate_spending_metrics g).spending_level =
        spendingLevelOf ((g.rows.filterMap (·.price_fixed)).sum) := by
    intro g hg
    constructor
    · simp [calculate_spending_metrics, hg]
    · simp [calculate_spending_metrics, spendingLevelOf, hg]
  have hsum : (eventsElectronics.rows.filterMap (·.price_fixed)).sum = 6000 := by
    simp [eventsElectronics, electronicsRow]
    norm_num
  refine ⟨(hgen f hpf).1, (hgen f hpf).2, ?_, ?_, ?_, ?_⟩
  · rw [(hgen eventsElectronics rfl).1, hsum]
  · rw [calculate_spending_metrics, if_pos (Or.inl (by simp [eventsElectronics]))]
    simp [eventsElectronics, electronicsRow, listMeanQ]
    norm_num
  · rw [(hgen eventsElectronics rfl).2, hsum, spendingLevelOf]
    norm_num
  · have hround1 : pyRound 3 (1 : ℚ) = 1 := Thousandth.pyRound3 ⟨1000, by norm_num⟩
    have hne1 : ("electronics" = "") = False := by simp
    have hne2 : ("electronics" = "null") = False := by simp
    rw [calculate_category_affinity]
    rw [if_neg (by simp [eventsElectronics]), if_neg (by simp [eventsElectronics])]
    norm_num [eventsElectronics, electronicsRow, List.filter, List.filterMap,
      List.dedup, List.insertionSort, List.orderedInsert, statCountGe, affinityValGe,
      hround1, hne1, hne2]

/-- Witness for C6 at the concrete electronics scenario frame. -/
theorem C6_spending_buckets_and_scenario_witness :
    (calculate_spending_metrics eventsElectronics).total_spent =
      (eventsElectronics.rows.filterMap (·.price_fixed)).sum ∧
    (calculate_spending_metrics eventsElectronics).spending_level =
      spendingLevelOf ((eventsElectronics.rows.filterMap (·.price_fixed)).sum) ∧
    (calculate_spending_metrics eventsElectronics).total_spent = 6000 ∧
    (calculate_spending_metrics eventsElectronics).avg_transaction_value = 2000 ∧
    (calculate_spending_metrics eventsElectronics).spending_level = "medium" ∧
    calculate_category_affinity eventsElectronics = [("electronics", 1)] :=
  C6_spending_buckets_and_scenario eventsElectronics rfl

/-! ### StrategyOptimizer: `AdvancedRecommendationEngine` strategies

The strategies of `src/recommendation_engine.py` consume the matcher's
recommendations table (`RecRow`s).  A polars
`sort(['user_id', k], descending=[False, True])` followed by
`group_by('user_id')` selections is modelled by a stable sort under the
lexicographic order (user ascending, key descending) followed by
per-key grouping in ascending user order; polars leaves tie and group
order unspecified, the embedding fixes the stable refinement. -/

/-- Lexicographic order: user id ascending, then revenue score
(second component) descending. -/
def revRowLe (a b : RecRow × ℚ) : Prop :=
  a.1.user_id < b.1.user_id ∨ (a.1.user_id = b.1.user_id ∧ b.2 ≤ a.2)

instance : DecidableRel revRowLe := fun x y =>
  inferInstanceAs
    (Decidable (x.1.user_id < y.1.user_id ∨ (x.1.user_id = y.1.user_id ∧ y.2 ≤ x.2)))

instance : IsTotal (RecRow × ℚ) revRowLe := by
  refine ⟨fun a b => ?_⟩
  rcases lt_trichotomy a.1.user_id b.1.user_id with h | h | h
  · exact Or.inl (Or.inl h)
  · rcases le_total b.2 a.2 with h2 | h2
    · exact Or.inl (Or.inr ⟨h, h2⟩)
    · exact Or.inr (Or.inr ⟨h.symm, h2⟩)
  · exact Or.inr (Or.inl h)

instance : IsTrans (RecRow × ℚ) revRowLe := by
  refine ⟨fun a b c hab hbc => ?_⟩
  rcases hab with h1 | ⟨h1, h1'⟩
  · rcases hbc with h2 | ⟨h2, _⟩
    · exact Or.inl (h1.trans h2)
    · exact Or.inl (h2 ▸ h1)
  · rcases hbc with h2 | ⟨h2, h2'⟩
    · exact Or.inl (h1 ▸ h2)
    · exact Or.inr ⟨h1.trans h2, h2'.trans h1'⟩

/-- The `revenue_score` column added by `_optimize_for_revenue`
(line 101): `final_score * 0.4 + business_value * 0.6`. -/
def revenue_score (r : RecRow) : ℚ := r.final_score * (4/10) + r.business_value * (6/10)

/-- The recommendations with `revenue_score` attached and sorted by
(user ascending, revenue descending) — the `with_columns`/`sort` steps
of `_optimize_for_revenue` (`src/recommendation_engine.py`,
lines 100-103), which do execute. -/
def revenueSorted (recommendations : List RecRow) : List (RecRow × ℚ) :=
  (recommendations.map (fun r => (r, revenue_score r))).insertionSort revRowLe

def revenueUsers (recommendations : List RecRow) : List String :=
  ((revenueSorted recommendations).map (fun x => x.1.user_id)).dedup

/-- The output names declared by the revenue aggregation's expression
list (lines 109-119), in order: the source aliases both
`pl.col('final_score').first()` (line 113) and
`pl.col('revenue_score').first()` (line 119) to the same output name
`final_score`. -/
def revenueAggAliases : List String :=
  ["product_id", "product_name", "product_type", "base_match_score", "final_score",
   "business_value", "reasoning", "llm_explanation", "ml_enhanced", "llm_enhanced",
   "final_score"]

/-- Embedding of `_optimize_for_revenue` (lines 95-123).  The
`with_columns`/`sort` steps compute the revenue scores, but the
`group_by('user_id').agg([...])` declares the output name
`final_score` twice (`revenueAggAliases`), which polars rejects at
schema resolution with a `DuplicateError` — on every call, regardless
of the data; `none` models that raise.  The `some` branch renders the
per-user selection the expression list describes (first row of each
sorted group, the last alias winning), which is never reached. -/
def optimize_for_revenue (recommendations : List RecRow) : Option (List RecRow) :=
  let optimizedSorted := revenueSorted recommendations
  if revenueAggAliases.Nodup then
    some ((revenueUsers recommendations).flatMap (fun u =>
      ((optimizedSorted.filter (fun x => x.1.user_id == u)).take 1).map
        (fun x => { x.1 with final_score := x.2 })))
  else none

/-- The `balanced_score` column added by `_optimize_balanced`
(line 155): `final_score * 0.6 + business_value * 0.4`. -/
def balanced_score (r : RecRow) : ℚ := r.final_score * (6/10) + r.business_value * (4/10)

/-- Embedding of `_optimize_balanced` (lines 149-167): attach
`balanced_score`, sort by (user ascending, balanced descending), keep
the first 3 rows of each user group, overwrite `final_score` with
`balanced_score` and drop the helper column. -/
def balancedSorted (recommendations : List RecRow) : List (RecRow × ℚ) :=
  (recommendations.map (fun r => (r, balanced_score r))).insertionSort revRowLe

def balancedUsers (recommendations : List RecRow) : List String :=
  ((balancedSorted recommendations).map (fun x => x.1.user_id)).dedup

def optimize_balanced (recommendations : List RecRow) : List RecRow :=
  (balancedUsers recommendations).flatMap (fun u =>
    (((balancedSorted recommendations).filter (fun x => x.1.user_id == u)).take 3).map
      (fun x => { x.1 with final_score := x.2 }))

/-- Lexicographic order on plain rows: user ascending, final score
descending (used by the coverage and engagement strategies). -/
def covRowLe (a b : RecRow) : Prop :=
  a.user_id < b.user_id ∨ (a.user_id = b.user_id ∧ b.final_score ≤ a.final_score)

instance : DecidableRel covRowLe := fun x y =>
  inferInstanceAs
    (Decidable (x.user_id < y.user_id ∨ (x.user_id = y.user_id ∧ y.final_score ≤ x.final_score)))

instance : IsTotal RecRow covRowLe := by
  refine ⟨fun a b => ?_⟩
  rcases lt_trichotomy a.user_id b.user_id with h | h | h
  · exact Or.inl (Or.inl h)
  · rcases le_total b.final_score a.final_score with h2 | h2
    · exact Or.inl (Or.inr ⟨h, h2⟩)
    · exact Or.inr (Or.inr ⟨h.symm, h2⟩)
  · exact Or.inr (Or.inl h)

instance : IsTrans RecRow covRowLe := by
  refine ⟨fun a b c hab hbc => ?_⟩
  rcases hab with h1 | ⟨h1, h1'⟩
  · rcases hbc with h2 | ⟨h2, _⟩
    · exact Or.inl (h1.trans h2)
    · exact Or.inl (h2 ▸ h1)
  · rcases hbc with h2 | ⟨h2, h2'⟩
    · exact Or.inl (h1 ▸ h2)
    · exact Or.inr ⟨h1.trans h2, h2'.trans h1'⟩

/-- Embedding of `_optimize_for_coverage` (lines 82-93): sort by
(user ascending, final score descending) and keep the first row of
each user group (`group_by('user_id').head(1)`, rows unchanged). -/
def optimize_for_coverage (recommendations : List RecRow) : List RecRow :=
  let optimizedSorted := recommendations.insertionSort covRowLe
  let users := (optimizedSorted.map (·.user_id)).dedup
  users.flatMap (fun u => (optimizedSorted.filter (fun x => x.user_id == u)).take 1)

/-- Embedding of `_optimize_for_engagement` (lines 125-147): sort by
(user ascending, final score descending) and aggregate every column's
`first()` per user group — the group's first row, unchanged. -/
def optimize_for_engagement (recommendations : List RecRow) : List RecRow :=
  let optimizedSorted := recommendations.insertionSort covRowLe
  let users := (optimizedSorted.map (·.user_id)).dedup
  users.flatMap (fun u => (optimizedSorted.filter (fun x => x.user_id == u)).take 1)

/-- Embedding of `_apply_optimization_strategy` (lines 69-80): label
dispatch, with every unrecognized label falling through to the
balanced strategy.  The dispatch has no exception handling, so the
revenue branch propagates that strategy's `DuplicateError` (`none`);
the other three strategies always succeed. -/
def apply_optimization_strategy (recommendations : List RecRow) (strategy : String) :
    Option (List RecRow) :=
  if strategy = "coverage" then some (optimize_for_coverage recommendations)
  else if strategy = "revenue" then optimize_for_revenue recommendations
  else if strategy = "engagement" then some (optimize_for_engagement recommendations)
  else some (optimize_balanced recommendations)

theorem countP_flatMap_group {β : Type} (userOfB : β → String) (users : List String)
    (g : String → List β) (hg : ∀ u, ∀ r ∈ g u, userOfB r = u) (hnd : users.Nodup)
    (u : String) :
    ((users.flatMap g).countP (fun r => userOfB r == u)) =
      if u ∈ users then (g u).length else 0 := by
  induction users with
  | nil => simp
  | cons v vs ih =>
    have hnd' : vs.Nodup := (List.nodup_cons.mp hnd).2
    have hv : v ∉ vs := (List.nodup_cons.mp hnd).1
    rw [List.flatMap_cons, List.countP_append, ih hnd']
    by_cases huv : u = v
    · subst huv
      have hcount : (g u).countP (fun r => userOfB r == u) = (g u).length :=
        List.countP_eq_length.mpr (fun r hr => by simp [hg u r hr])
      simp [hcount, hv]
    · have hcount : (g v).countP (fun r => userOfB r == u) = 0 := by
        rw [List.countP_eq_zero]
        intro r hr
        simp only [hg v r hr, beq_iff_eq]
        exact fun h => huv h.symm
      have hmem : (u ∈ v :: vs) ↔ (u ∈ vs) := by
        simp [List.mem_cons, huv]
      simp only [hcount, hmem]
      omega

theorem mem_optimize_balanced {recs : List RecRow} {r : RecRow}
    (h : r ∈ optimize_balanced recs) :
    ∃ c ∈ recs, r = { c with final_score := balanced_score c } := by
  rw [optimize_balanced] at h
  simp only [List.mem_flatMap] at h
  obtain ⟨u, _, hr⟩ := h
  rw [List.mem_map] at hr
  obtain ⟨x, hx, hrx⟩ := hr
  have hxs : x ∈ balancedSorted recs :=
    (List.mem_filter.mp (List.mem_of_mem_take hx)).1
  rw [balancedSorted] at hxs
  obtain ⟨c, hc, hcx⟩ := List.mem_map.mp ((List.mem_insertionSort _).mp hxs)
  exact ⟨c, hc, by rw [← hrx, ← hcx]⟩

theorem optimize_balanced_countP_le (recs : List RecRow) (u : String) :
    (optimize_balanced recs).countP (fun r => r.user_id == u) ≤ 3 := by
  have hg : ∀ u', ∀ r ∈ (fun u' =>
      (((balancedSorted recs).filter (fun x => x.1.user_id == u')).take 3).map
        (fun x => { x.1 with final_score := x.2 })) u', r.user_id = u' := by
    intro u' r hr
    obtain ⟨x, hx, hrx⟩ := List.mem_map.mp hr
    have hbeq := (List.mem_filter.mp (List.mem_of_mem_take hx)).2
    rw [← hrx]
    exact beq_iff_eq.mp hbeq
  have hcount := countP_flatMap_group (fun r : RecRow => r.user_id) (balancedUsers recs)
    (fun u' => (((balancedSorted recs).filter (fun x => x.1.user_id == u')).take 3).map
      (fun x => { x.1 with final_score := x.2 })) hg (List.nodup_dedup _) u
  rw [optimize_balanced, hcount]
  split_ifs
  · calc ((((balancedSorted recs).filter (fun x => x.1.user_id == u)).take 3).map
          (fun x => { x.1 with final_score := x.2 })).length
        = (((balancedSorted recs).filter (fun x => x.1.user_id == u)).take 3).length :=
          List.length_map _ _
      _ ≤ 3 := by rw [List.length_take]; exact Nat.min_le_left _ _
  · exact Nat.zero_le 3

/-- C7: any strategy label other than `"coverage"`, `"revenue"` and
`"engagement"` is dispatched to the balanced strategy (so unrecognized
labels never error), whose output rebates each kept candidate's final
score to `0.6*final_score + 0.4*business_value` and keeps at most 3
candidates per user. -/
theorem C7_unrecognized_strategy_is_balanced (strategy : String) (recs : List RecRow)
    (h1 : strategy ≠ "coverage") (h2 : strategy ≠ "revenue") (h3 : strategy ≠ "engagement") :
    apply_optimization_strategy recs strategy = some (optimize_balanced recs) ∧
    (∀ u : String,
      (optimize_balanced recs).countP (fun r => r.user_id == u) ≤ 3) ∧
    ∀ r ∈ optimize_balanced recs,
      ∃ c ∈ recs, r = { c with final_score := balanced_score c } := by
  have heq : apply_optimization_strategy recs strategy = some (optimize_balanced recs) := by
    rw [apply_optimization_strategy, if_neg h1, if_neg h2, if_neg h3]
  exact ⟨heq, fun u => optimize_balanced_countP_le recs u,
    fun r hr => mem_optimize_balanced hr⟩

def recRowA : RecRow :=
  { user_id := "u1", product_id := "deposit_1", product_name := "Вклад «ПСБ.Накопительный»",
    product_type := "deposits", base_match_score := 3/10, final_score := 3/10,
    reasoning := "", llm_explanation := "", business_value := 7/10,
    ml_enhanced := false, llm_enhanced := true }

/-- Witness for C7 at the unrecognized label `"maximize_clicks"` and a
one-candidate collection. -/
theorem C7_unrecognized_strategy_is_balanced_witness :
    apply_optimization_strategy [recRowA] "maximize_clicks" =
      some (optimize_balanced [recRowA]) ∧
    (∀ u : String,
      (optimize_balanced [recRowA]).countP (fun r => r.user_id == u) ≤ 3) ∧
    ∀ r ∈ optimize_balanced [recRowA],
      ∃ c ∈ [recRowA], r = { c with final_score := balanced_score c } :=
  C7_unrecognized_strategy_is_balanced "maximize_clicks" [recRowA]
    (by simp) (by simp) (by simp)

/-! ### Claim C3: revenue strategy -/

/-- First candidate of scenario C: final_score 0.9, business_value 0.2. -/
def revCandA : RecRow :=
  { user_id := "u1", product_id := "p1", product_name := "A", product_type := "deposits",
    base_match_score := 9/10, final_score := 9/10, reasoning := "", llm_explanation := "",
    business_value := 2/10, ml_enhanced := false, llm_enhanced := true }

/-- Second candidate of scenario C: final_score 0.5, business_value 0.9. -/
def revCandB : RecRow :=
  { user_id := "u1", product_id := "p2", product_name := "B", product_type := "insurance",
    base_match_score := 1/2, final_score := 1/2, reasoning := "", llm_explanation := "",
    business_value := 9/10, ml_enhanced := false, llm_enhanced := true }

/-- C3: evaluating the revenue strategy at the scenario pair.  The
`with_columns` step's `revenue_score = 0.4*final_score +
0.6*business_value` gives 0.48 and 0.74 on the two candidates — 0.48,
not the 0.56 the claim states — and the strategy then raises on every
call (its aggregation declares the output name `final_score` twice),
so it never selects a candidate or overwrites `final_score`,
contradicting the claim and the source's own overwrite comment. -/
theorem C3_revenue_strategy_raises :
    revenue_score revCandA = 48/100 ∧
    ¬(revenue_score revCandA = 56/100) ∧
    revenue_score revCandB = 74/100 ∧
    optimize_for_revenue [revCandA, revCandB] = none ∧
    ∀ recs : List RecRow, optimize_for_revenue recs = none := by
  have hdup : ¬revenueAggAliases.Nodup := by decide
  refine ⟨by norm_num [revenue_score, revCandA], by norm_num [revenue_score, revCandA],
    by norm_num [revenue_score, revCandB], ?_, ?_⟩
  · rw [optimize_for_revenue, if_neg hdup]
  · intro recs
    rw [optimize_for_revenue, if_neg hdup]

/-! ### QualityEvaluator: `utils/metrics.py`

The evaluator receives the final recommendations table; each metric
group guards the optional columns it uses (`'col' in df.columns`), so
the frame again carries one presence flag per optional column.  Cell
values are meaningful only when the column flag is set. -/

structure MetricsRecRow where
  user_id : String
  product_id : String
  product_type : String
  match_score : ℚ
  final_score : ℚ
  business_value : ℚ

structure RecsFrame where
  rows : List MetricsRecRow
  has_match_score : Bool
  has_final_score : Bool
  has_business_value : Bool
  has_product_id : Bool
  has_product_type : Bool

structure CoverageMetrics where
  user_coverage_rate : ℚ
  total_users_covered : ℕ
  avg_recommendations_per_user : ℚ
  users_with_multiple_recommendations : ℕ
  coverage_quality : String
deriving DecidableEq

/-- Embedding of `RecommendationMetrics._calculate_coverage_metrics`
(`src/utils/metrics.py`, lines 78-110): empty recommendations short-
circuit to the zero default before any division. -/
def calculate_coverage_metrics (recommendations : RecsFrame)
    (user_profiles : List UserProfile) : CoverageMetrics :=
  if recommendations.rows.length = 0 then
    { user_coverage_rate := 0, total_users_covered := 0,
      avg_recommendations_per_user := 0, users_with_multiple_recommendations := 0,
      coverage_quality := "low" }
  else
    let total_users := user_profiles.length
    let users_with_recs := (recommendations.rows.map (·.user_id)).dedup.length
    let coverage_rate : ℚ :=
      if total_users > 0 then (users_with_recs : ℚ) / (total_users : ℚ) else 0
    let recs_per_user : List ℕ := ((recommendations.rows.map (·.user_id)).dedup).map
      (fun u => (recommendations.rows.filter (fun r => r.user_id == u)).length)
    let avg_recs_per_user : ℚ :=
      if recs_per_user.length > 0 then listMeanQ (recs_per_user.map (fun n => (n : ℚ))) else 0
    { user_coverage_rate := pyRound 3 coverage_rate,
      total_users_covered := users_with_recs,
      avg_recommendations_per_user := pyRound 2 avg_recs_per_user,
      users_with_multiple_recommendations := (recs_per_user.filter (fun n => n > 1)).length,
      coverage_quality :=
        if coverage_rate > 7/10 then "high"
        else if coverage_rate > 4/10 then "medium" else "low" }

structure RelevanceMetrics where
  avg_match_score : ℚ
  avg_final_score : ℚ
  high_confidence_rate : ℚ
  confidence_distribution : List (String × ℕ)
  relevance_quality : String
deriving DecidableEq

/-- Embedding of `_calculate_relevance_metrics` (lines 112-152): the
missing `match_score` column falls back to a constant 0.5 series, the
missing `final_score` column falls back to the match scores. -/
def calculate_relevance_metrics (recommendations : RecsFrame) : RelevanceMetrics :=
  if recommendations.rows.length = 0 then
    { avg_match_score := 0, avg_final_score := 0, high_confidence_rate := 0,
      confidence_distribution := [], relevance_quality := "low" }
  else
    let n := recommendations.rows.length
    let match_scores : List ℚ :=
      if recommendations.has_match_score then recommendations.rows.map (·.match_score)
      else List.replicate n (1/2)
    let final_scores : List ℚ :=
      if recommendations.has_final_score then recommendations.rows.map (·.final_score)
      else match_scores
    let avg_match := listMeanQ match_scores
    let avg_final := listMeanQ final_scores
    let high_confidence_rate : ℚ :=
      if recommendations.has_match_score then
        ((recommendations.rows.filter (fun r => r.match_score > 7/10)).length : ℚ) / (n : ℚ)
      else 0
    let confidence_levels : List (String × ℕ) :=
      if recommendations.has_match_score then
        [("very_high", (recommendations.rows.filter (fun r => r.match_score > 8/10)).length),
         ("high", (recommendations.rows.filter
            (fun r => r.match_score > 6/10 ∧ r.match_score ≤ 8/10)).length),
         ("medium", (recommendations.rows.filter
            (fun r => r.match_score > 4/10 ∧ r.match_score ≤ 6/10)).length),
         ("low", (recommendations.rows.filter (fun r => r.match_score ≤ 4/10)).length)]
      else [("very_high", 0), ("high", 0), ("medium", 0), ("low", n)]
    { avg_match_score := pyRound 3 avg_match,
      avg_final_score := pyRound 3 avg_final,
      high_confidence_rate := pyRound 3 high_confidence_rate,
      confidence_distribution := confidence_levels,
      relevance_quality :=
        if avg_match > 6/10 then "high" else if avg_match > 4/10 then "medium" else "low" }

structure DiversityMetrics where
  unique_products_recommended : ℕ
  product_diversity_score : ℚ
  diversity_index : ℚ
  product_type_distribution : List (String × ℕ × ℚ)
  diversity_quality : String
deriving DecidableEq

/-- Embedding of `_calculate_diversity_metrics` (lines 154-196):
product-type groups are keyed in first-occurrence order (polars leaves
group order unspecified); the diversity index is the Herfindahl
complement over the type shares. -/
def calculate_diversity_metrics (recommendations : RecsFrame) : DiversityMetrics :=
  if recommendations.rows.length = 0 then
    { product_diversity_score := 0, diversity_index := 0,
      unique_products_recommended := 0, product_type_distribution := [],
      diversity_quality := "low" }
  else
    let total_recommendations := recommendations.rows.length
    let unique_products :=
      if recommendations.has_product_id then
        (recommendations.rows.map (·.product_id)).dedup.length
      else 0
    let product_diversity : ℚ :=
      if total_recommendations > 0 then
        (unique_products : ℚ) / (total_recommendations : ℚ)
      else 0
    let type_counts : List (String × ℕ) :=
      ((recommendations.rows.map (·.product_type)).dedup).map (fun t =>
        (t, (recommendations.rows.filter (fun r => r.product_type == t)).length))
    let product_type_distribution : List (String × ℕ × ℚ) :=
      if recommendations.has_product_type then
        type_counts.map (fun tc =>
          (tc.1, tc.2, (tc.2 : ℚ) / (total_recommendations : ℚ)))
      else []
    let diversity_index : ℚ :=
      if recommendations.has_product_type then
        1 - ((type_counts.map (fun tc =>
          ((tc.2 : ℚ) / (total_recommendations : ℚ)) ^ 2)).sum)
      else 0
    { unique_products_recommended := unique_products,
      product_diversity_score := pyRound 3 product_diversity,
      diversity_index := pyRound 3 diversity_index,
      product_type_distribution := product_type_distribution,
      diversity_quality :=
        if diversity_index > 7/10 then "high"
        else if diversity_index > 4/10 then "medium" else "low" }

structure RevenueImpact where
  estimated_total_impact : ℚ
  estimated_impact_per_user : ℚ
  impact_confidence : String
deriving DecidableEq

/-- Embedding of `_estimate_revenue_impact` (lines 237-266). -/
def estimate_revenue_impact (recommendations : RecsFrame) : RevenueImpact :=
  if recommendations.rows.length = 0 then
    { estimated_total_impact := 0, estimated_impact_per_user := 0,
      impact_confidence := "low" }
  else
    let high_value_recs :=
      if recommendations.has_final_score then
        (recommendations.rows.filter (fun r => r.final_score > 6/10)).length
      else 0
    let medium_value_recs :=
      if recommendations.has_final_score then
        (recommendations.rows.filter
          (fun r => r.final_score > 4/10 ∧ r.final_score ≤ 6/10)).length
      else recommendations.rows.length / 2
    let estimated_impact : ℚ :=
      (high_value_recs : ℚ) * 50000 * (3/10) + (medium_value_recs : ℚ) * 15000 * (15/100)
    let unique_users := (recommendations.rows.map (·.user_id)).dedup.length
    let impact_per_user : ℚ :=
      if unique_users > 0 then estimated_impact / (unique_users : ℚ) else 0
    { estimated_total_impact := pyRound 2 estimated_impact,
      estimated_impact_per_user := pyRound 2 impact_per_user,
      impact_confidence := if high_value_recs > medium_value_recs then "high" else "medium" }

structure BusinessMetrics where
  total_business_value : ℚ
  avg_business_value_per_rec : ℚ
  premium_recommendations_rate : ℚ
  expected_conversion_rate : ℚ
  estimated_revenue_impact : RevenueImpact
  business_impact : String
deriving DecidableEq

/-- Embedding of `_calculate_business_metrics` (lines 198-235). -/
def calculate_business_metrics (recommendations : RecsFrame) : BusinessMetrics :=
  if recommendations.rows.length = 0 then
    { total_business_value := 0, avg_business_value_per_rec := 0,
      premium_recommendations_rate := 0, expected_conversion_rate := 0,
      estimated_revenue_impact :=
        { estimated_total_impact := 0, estimated_impact_per_user := 0,
          impact_confidence := "low" },
      business_impact := "low" }
  else
    let n := recommendations.rows.length
    let business_values : List ℚ :=
      if recommendations.has_business_value then recommendations.rows.map (·.business_value)
      else List.replicate n (1/2)
    let final_scores : List ℚ :=
      if recommendations.has_final_score then recommendations.rows.map (·.final_score)
      else business_values
    let products := (business_values.zip final_scores).map (fun p => p.1 * p.2)
    let total_business_value := products.sum
    let avg_business_value := listMeanQ products
    let premium_rate : ℚ :=
      if recommendations.has_business_value then
        ((recommendations.rows.filter (fun r => r.business_value > 8/10)).length : ℚ) / (n : ℚ)
      else 0
    let expected_conversion := listMeanQ (final_scores.map (fun s => s * (3/10)))
    { total_business_value := pyRound 3 total_business_value,
      avg_business_value_per_rec := pyRound 3 avg_business_value,
      premium_recommendations_rate := pyRound 3 premium_rate,
      expected_conversion_rate := pyRound 3 expected_conversion,
      estimated_revenue_impact := estimate_revenue_impact recommendations,
      business_impact :=
        if avg_business_value > 6/10 then "high"
        else if avg_business_value > 4/10 then "medium" else "low" }

/-- Round an exact real to the nearest integer, ties to even (the real
counterpart of `roundHalfEven`, for the standard-deviation fields). -/
noncomputable def roundHalfEvenR (x : ℝ) : ℤ :=
  let f := ⌊x⌋
  let r := x - f
  if r < 1/2 then f
  else if 1/2 < r then f + 1
  else if 2 ∣ f then f else f + 1

/-- Python `round` on the real-valued statistics. -/
noncomputable def pyRoundR (n : ℕ) (x : ℝ) : ℝ := (roundHalfEvenR (x * 10 ^ n) : ℝ) / 10 ^ n

/-- polars `quantile(q)` with its default `nearest` interpolation:
the element of the sorted data whose index is `q * (n - 1)` rounded to
the nearest integer. -/
def quantileNearest (q : ℚ) (l : List ℚ) : ℚ :=
  let sortedL := l.insertionSort (fun a b => a ≤ b)
  sortedL.getD (roundHalfEven (q * ((l.length : ℚ) - 1))).toNat 0

structure ScoreDistStats where
  mean : ℚ
  std : Option ℝ
  min : ℚ
  max : ℚ
  q25 : ℚ
  q75 : ℚ

structure UserDistOut where
  avg_recs_per_user : ℚ
  max_recs_to_user : ℚ
  users_with_1_rec : ℕ
  users_with_3plus_recs : ℕ
deriving DecidableEq

/-- Output of `_calculate_distribution_metrics`: on the empty frame
the source returns two empty dicts, modelled as `none`. -/
structure DistributionMetrics where
  score_distribution : Option ScoreDistStats
  user_distribution : Option UserDistOut

/-- Embedding of `_calculate_distribution_metrics` (lines 268-323).
`std` is `none` when polars returns null (fewer than two samples); on
that input the source's `float(None)` raises and the broad `except` of
`calculate_all_metrics` takes over — the embedding records the null
instead of modelling the raise. -/
noncomputable def calculate_distribution_metrics (recommendations : RecsFrame) :
    DistributionMetrics :=
  if recommendations.rows.length = 0 then
    { score_distribution := none, user_distribution := none }
  else
    let score_stats : ScoreDistStats :=
      if recommendations.has_final_score then
        let score_data := recommendations.rows.map (·.final_score)
        { mean := pyRound 3 (listMeanQ score_data),
          std := (sampleStd? score_data).map (pyRoundR 3),
          min := pyRound 3 ((score_data.min?).getD 0),
          max := pyRound 3 ((score_data.max?).getD 0),
          q25 := pyRound 3 (quantileNearest (25/100) score_data),
          q75 := pyRound 3 (quantileNearest (75/100) score_data) }
      else
        { mean := 0, std := some 0, min := 0, max := 0, q25 := 0, q75 := 0 }
    let rec_counts : List ℕ := ((recommendations.rows.map (·.user_id)).dedup).map
      (fun u => (recommendations.rows.filter (fun r => r.user_id == u)).length)
    let user_distribution : UserDistOut :=
      { avg_recs_per_user := pyRound 2 (listMeanQ (rec_counts.map (fun n => (n : ℚ)))),
        max_recs_to_user := ((rec_counts.map (fun n => (n : ℚ))).max?).getD 0,
        users_with_1_rec := (rec_counts.filter (fun n => n == 1)).length,
        users_with_3plus_recs := (rec_counts.filter (fun n => n ≥ 3)).length }
    { score_distribution := some score_stats, user_distribution := some user_distribution }

structure OverallScore where
  overall_score : ℚ
  quality_rating : String
  component_scores : List (String × ℚ)
deriving DecidableEq

/-- Embedding of `_calculate_overall_score` (lines 325-366). -/
def calculate_overall_score (coverage : CoverageMetrics) (relevance : RelevanceMetrics)
    (diversity : DiversityMetrics) (business : BusinessMetrics) : OverallScore :=
  let coverage_score := coverage.user_coverage_rate
  let relevance_score := relevance.avg_match_score
  let diversity_score := diversity.diversity_index
  let business_score := min (business.avg_business_value_per_rec * 2) 1
  let overall := coverage_score * (25/100) + relevance_score * (35/100) +
    diversity_score * (2/10) + business_score * (2/10)
  { overall_score := pyRound 3 overall,
    quality_rating :=
      if overall > 7/10 then "excellent"
      else if overall > 1/2 then "good"
      else if overall > 3/10 then "fair"
      else "poor",
    component_scores :=
      [("coverage", pyRound 3 coverage_score), ("relevance", pyRound 3 relevance_score),
       ("diversity", pyRound 3 diversity_score), ("business", pyRound 3 business_score)] }

structure MetricsReport where
  coverage : CoverageMetrics
  relevance : RelevanceMetrics
  diversity : DiversityMetrics
  business : BusinessMetrics
  distribution : DistributionMetrics
  overall_score : OverallScore

/-- Embedding of `RecommendationMetrics.calculate_all_metrics`
(lines 13-45): the five metric groups plus the composite score.  The
broad `except` fallback to `_get_basic_metrics` is unreachable in this
total embedding (its only trigger, `float(None)` on a null standard
deviation, is recorded as `none` in the distribution group). -/
noncomputable def calculate_all_metrics (recommendations : RecsFrame)
    (user_profiles : List UserProfile) : MetricsReport :=
  let coverage := calculate_coverage_metrics recommendations user_profiles
  let relevance := calculate_relevance_metrics recommendations
  let diversity := calculate_diversity_metrics recommendations
  let business := calculate_business_metrics recommendations
  let distribution := calculate_distribution_metrics recommendations
  { coverage := coverage, relevance := relevance, diversity := diversity,
    business := business, distribution := distribution,
    overall_score := calculate_overall_score coverage relevance diversity business }

/-- C8: on an empty recommendation set — whatever the column flags and
the profile set — every metric group returns its documented
zero-default record, with no division performed. -/
theorem C8_empty_metrics_defaults (b1 b2 b3 b4 b5 : Bool)
    (user_profiles : List UserProfile) :
    calculate_coverage_metrics ⟨[], b1, b2, b3, b4, b5⟩ user_profiles =
      { user_coverage_rate := 0, total_users_covered := 0,
        avg_recommendations_per_user := 0, users_with_multiple_recommendations := 0,
        coverage_quality := "low" } ∧
    calculate_relevance_metrics ⟨[], b1, b2, b3, b4, b5⟩ =
      { avg_match_score := 0, avg_final_score := 0, high_confidence_rate := 0,
        confidence_distribution := [], relevance_quality := "low" } ∧
    calculate_diversity_metrics ⟨[], b1, b2, b3, b4, b5⟩ =
      { product_diversity_score := 0, diversity_index := 0,
        unique_products_recommended := 0, product_type_distribution := [],
        diversity_quality := "low" } ∧
    calculate_business_metrics ⟨[], b1, b2, b3, b4, b5⟩ =
      { total_business_value := 0, avg_business_value_per_rec := 0,
        premium_recommendations_rate := 0, expected_conversion_rate := 0,
        estimated_revenue_impact :=
          { estimated_total_impact := 0, estimated_impact_per_user := 0,
            impact_confidence := "low" },
        business_impact := "low" } ∧
    (calculate_distribution_metrics ⟨[], b1, b2, b3, b4, b5⟩).score_distribution = none ∧
    (calculate_distribution_metrics ⟨[], b1, b2, b3, b4, b5⟩).user_distribution = none := by
  refine ⟨?_, ?_, ?_, ?_, ?_, ?_⟩ <;>
    simp [calculate_coverage_metrics, calculate_relevance_metrics,
      calculate_diversity_metrics, calculate_business_metrics,
      calculate_distribution_metrics]

/-- Witness for C2 at a concrete profile, product list and the base
(no-ML) path. -/
theorem C2_per_user_output_invariants_witness :
    (∀ r ∈ get_enhanced_recommendations_for_user profileNoSignals
        [("deposits", productDeposit1)] none, r.final_score > 2/10) ∧
    (get_enhanced_recommendations_for_user profileNoSignals
        [("deposits", productDeposit1)] none).length ≤ 5 ∧
    List.Sorted recFinalGe (get_enhanced_recommendations_for_user profileNoSignals
        [("deposits", productDeposit1)] none) ∧
    (∀ v : ℚ, ((get_enhanced_recommendations_for_user profileNoSignals
          [("deposits", productDeposit1)] none).filter
        (fun r => r.final_score = v)).Sublist
      ((enhanced_candidates profileNoSignals [("deposits", productDeposit1)] none).filter
        (fun r => r.final_score = v))) :=
  C2_per_user_output_invariants profileNoSignals [("deposits", productDeposit1)] none

/-- Witness for C9 at a concrete profile and a one-product catalog. -/
theorem C9_base_path_retention_witness :
    (enhanced_candidates profileNoSignals [("deposits", productDeposit1)] none).length =
      [("deposits", productDeposit1)].length ∧
    (get_enhanced_recommendations_for_user profileNoSignals
        [("deposits", productDeposit1)] none).length =
      min 5 [("deposits", productDeposit1)].length ∧
    ∀ r ∈ get_enhanced_recommendations_for_user profileNoSignals
        [("deposits", productDeposit1)] none,
      (∃ tp ∈ [("deposits", productDeposit1)],
        r.final_score = (calculate_simple_product_match profileNoSignals tp.2).1) ∧
      3/10 ≤ r.final_score ∧ r.final_score > 2/10 :=
  C9_base_path_retention profileNoSignals [("deposits", productDeposit1)]
